import Mathlib

/-!
Shallow embedding of the `apex` Application Insights span exporter
(`exporter.go`) and verification of its specification.

The exporter translates OpenTelemetry spans into Application Insights
telemetry records.  Go maps over strings are modelled as association
lists without duplicate keys (every map in the program is built from the
empty map by `mapSet`); Go `time.Time`/`time.Duration` are modelled as
integer nanosecond counts; trace/span identifiers are modelled as their
byte sequences together with the lowercase-hex rendering used by
`TraceID.String()` / `SpanID.String()`.
-/

set_option autoImplicit false

namespace Apex

/-- Property maps (`map[string]string` in the source). -/
abbrev PropMap := List (String × String)

/-- Lookup of a key, mirroring Go map indexing `m[k]`. -/
def mapGet : PropMap → String → Option String
  | [], _ => none
  | (k', v) :: rest, k => if k' = k then some v else mapGet rest k

/-- Removal of a key, mirroring Go `delete(m, k)`. -/
def mapDel : PropMap → String → PropMap
  | [], _ => []
  | (k', v) :: rest, k =>
    if k' = k then mapDel rest k else (k', v) :: mapDel rest k

/-- Insertion/update of a key, mirroring Go map assignment `m[k] = v`. -/
def mapSet : PropMap → String → String → PropMap
  | [], k, v => [(k, v)]
  | (k', v') :: rest, k, v =>
    if k' = k then (k, v) :: rest else (k', v') :: mapSet rest k v

/-- The `if val, ok := properties[k]; ok { delete(properties, k); field = val }`
pattern used throughout the mapper: yields the field value (the default when
the key is absent) and the remaining property map. -/
def takeKey (m : PropMap) (k dflt : String) : String × PropMap :=
  match mapGet m k with
  | some v => (v, mapDel m k)
  | none => (dflt, m)

/-- One lowercase hexadecimal digit, as produced by Go's `encoding/hex`. -/
def hexDigit (n : Nat) : Char :=
  if n < 10 then Char.ofNat (48 + n) else Char.ofNat (87 + n)

/-- Lowercase hex rendering of a byte sequence, two digits per byte,
most-significant digit first (Go's `hex.EncodeToString`). -/
def bytesToHexChars : List Nat → List Char
  | [] => []
  | b :: rest => hexDigit (b / 16 % 16) :: hexDigit (b % 16) :: bytesToHexChars rest

/-- Lowercase hex string of a byte sequence: the rendering used by
`TraceID.String()` and `SpanID.String()`. -/
def bytesToHex (bs : List Nat) : String :=
  ⟨bytesToHexChars bs⟩

/-- Whether every character of a string is a lowercase hex digit. -/
def isLowerHex (s : String) : Bool :=
  s.data.all (fun c => ("0123456789abcdef".data).contains c)

/-- Span status codes (`go.opentelemetry.io/otel/codes`). -/
inductive StatusCode where
  | unset
  | ok
  | error
  deriving DecidableEq, Repr

/-- The standard service-name attribute key (`semconv.ServiceNameKey`). -/
def serviceNameKey : String := "service.name"

/-- Span kind constants (`go.opentelemetry.io/otel/trace`), as the integer
values of the Go `SpanKind` type. -/
def SpanKindUnspecified : Nat := 0

/-- Span kind `internal`. -/
def SpanKindInternal : Nat := 1

/-- Span kind `server`. -/
def SpanKindServer : Nat := 2

/-- Span kind `client`. -/
def SpanKindClient : Nat := 3

/-- Span kind `producer`. -/
def SpanKindProducer : Nat := 4

/-- Span kind `consumer`. -/
def SpanKindConsumer : Nat := 5

/-- A read-only span, with the fields the exporter reads.  Times are integer
nanosecond counts; identifiers are byte sequences (16 bytes for the trace id,
8 for span/parent ids); attribute values are already rendered as strings
(`Value.AsString()`). -/
structure Span where
  name : String
  kind : Nat
  statusCode : StatusCode
  startTime : Int
  endTime : Int
  traceId : List Nat
  parentId : List Nat
  spanId : List Nat
  resourceAttrs : List (String × String)
  attrs : List (String × String)
  deriving DecidableEq, Repr

/-- The observable fields of an `appinsights.EventTelemetry` record as
populated by `processInternal`. -/
structure EventTelemetry where
  name : String
  timestamp : Int
  properties : PropMap
  cloudRole : String
  operationId : String
  operationParentId : String
  operationName : String
  deriving DecidableEq, Repr

/-- The observable fields of an `appinsights.RequestTelemetry` record as
populated by `processRequest` / `processEvent`. -/
structure RequestTelemetry where
  name : String
  url : String
  id : String
  duration : Int
  responseCode : String
  success : Bool
  timestamp : Int
  properties : PropMap
  cloudRole : String
  operationId : String
  operationParentId : String
  operationName : String
  deriving DecidableEq, Repr

/-- The observable fields of an `appinsights.RemoteDependencyTelemetry`
record as populated by `processDependency`. -/
structure RemoteDependencyTelemetry where
  name : String
  id : String
  type : String
  target : String
  duration : Int
  success : Bool
  timestamp : Int
  properties : PropMap
  cloudRole : String
  operationId : String
  operationParentId : String
  operationName : String
  deriving DecidableEq, Repr

/-- A telemetry record handed to `client.Track`, tagged by the mapping
routine that produced it (`processInternal`, `processRequest`,
`processEvent`, `processDependency`). -/
inductive Track where
  | internalEvent : EventTelemetry → Track
  | request : RequestTelemetry → Track
  | trackedEvent : RequestTelemetry → Track
  | dependency : RemoteDependencyTelemetry → Track
  deriving DecidableEq, Repr

/-- Parent-id derivation shared by every mapping: the parent span id in hex,
falling back to the trace id in hex when it is the all-zero sentinel. -/
def parentOperationId (sp : Span) : String :=
  let pid := bytesToHex sp.parentId
  if pid = "0000000000000000" then bytesToHex sp.traceId else pid

/-- `processInternal`: constructs the telemetry for an internal event. -/
def processInternal (sp : Span) (properties : PropMap) : EventTelemetry :=
  let t1 := takeKey properties serviceNameKey "unknown-service"
  { name := sp.name
    timestamp := sp.startTime
    properties := t1.2
    cloudRole := t1.1
    operationId := bytesToHex sp.traceId
    operationParentId := parentOperationId sp
    operationName := sp.name }

/-- `processRequest`: constructs the telemetry for an incoming http request. -/
def processRequest (sp : Span) (success : Bool) (properties : PropMap) :
    RequestTelemetry :=
  let t1 := takeKey properties serviceNameKey "unknown-service"
  let t2 := takeKey t1.2 "url" ""
  let t3 := takeKey t2.2 "responseCode" "0"
  { name := sp.name
    url := t2.1
    id := bytesToHex sp.spanId
    duration := sp.endTime - sp.startTime
    responseCode := t3.1
    success := success
    timestamp := sp.startTime
    properties := t3.2
    cloudRole := t1.1
    operationId := bytesToHex sp.traceId
    operationParentId := parentOperationId sp
    operationName := sp.name }

/-- `processEvent`: constructs the telemetry for an incoming event; identical
to `processRequest` except that the url field sources from the `key`
property. -/
def processEvent (sp : Span) (success : Bool) (properties : PropMap) :
    RequestTelemetry :=
  let t1 := takeKey properties serviceNameKey "unknown-service"
  let t2 := takeKey t1.2 "key" ""
  let t3 := takeKey t2.2 "responseCode" "0"
  { name := sp.name
    url := t2.1
    id := bytesToHex sp.spanId
    duration := sp.endTime - sp.startTime
    responseCode := t3.1
    success := success
    timestamp := sp.startTime
    properties := t3.2
    cloudRole := t1.1
    operationId := bytesToHex sp.traceId
    operationParentId := parentOperationId sp
    operationName := sp.name }

/-- `processDependency`: constructs the telemetry for an outgoing
dependency.  Cloud role sources from `source`, type from `type`, and the
target from the service-name key. -/
def processDependency (sp : Span) (success : Bool) (properties : PropMap) :
    RemoteDependencyTelemetry :=
  let t1 := takeKey properties "source" "unknown-service"
  let t2 := takeKey t1.2 "type" ""
  let t3 := takeKey t2.2 serviceNameKey "unknown-target"
  { name := sp.name
    id := bytesToHex sp.spanId
    type := t2.1
    target := t3.1
    duration := sp.endTime - sp.startTime
    success := success
    timestamp := sp.startTime
    properties := t3.2
    cloudRole := t1.1
    operationId := bytesToHex sp.traceId
    operationParentId := parentOperationId sp
    operationName := sp.name }

/-- The merged property map built at the top of `process`: resource
attributes first, then span attributes, inserted into an initially empty
map so span attributes override resource attributes on collision. -/
def mergedProps (sp : Span) : PropMap :=
  let props : PropMap := []
  let props := sp.resourceAttrs.foldl (fun m e => mapSet m e.1 e.2) props
  sp.attrs.foldl (fun m e => mapSet m e.1 e.2) props

/-- `process`: routes the span to the processing function matching its kind.
Returns the record handed to `client.Track`, or `none` when the kind matches
no case of the switch (no record is emitted). -/
def process (sp : Span) : Option Track :=
  let success := decide (sp.statusCode = StatusCode.ok)
  let props := mergedProps sp
  if sp.kind = SpanKindUnspecified then some (.internalEvent (processInternal sp props))
  else if sp.kind = SpanKindInternal then some (.internalEvent (processInternal sp props))
  else if sp.kind = SpanKindServer then some (.request (processRequest sp success props))
  else if sp.kind = SpanKindClient then some (.dependency (processDependency sp success props))
  else if sp.kind = SpanKindProducer then some (.dependency (processDependency sp success props))
  else if sp.kind = SpanKindConsumer then some (.trackedEvent (processEvent sp success props))
  else none

/-- Exporter state: the `closed` flag guarded by the read-write mutex.  The
telemetry client handle is external and not modelled beyond the records
submitted to it. -/
structure AppInsightsExporter where
  closed : Bool
  deriving DecidableEq, Repr

/-- `ExportSpans`: fails with the closed-exporter error when the exporter is
closed, otherwise processes every span in order; the returned list holds the
records submitted to `client.Track`. -/
def ExportSpans (exp : AppInsightsExporter) (spans : List Span) :
    Except String (List Track) :=
  if exp.closed then .error "exporter closed"
  else .ok (spans.filterMap process)

/-- `Shutdown`: sets `closed`, then races the client channel's close
completion against the context's cancellation.  `closeFirst` records which
of the two signals of the `select` fires first.  Returns the new exporter
state and the outcome. -/
def Shutdown (exp : AppInsightsExporter) (closeFirst : Bool) :
    AppInsightsExporter × Except String Unit :=
  let exp := { exp with closed := true }
  (exp, if closeFirst then .ok () else .error "context canceled")

/-- Variant tag of a record: which of the four mappings produced it. -/
def Track.tag : Track → Nat
  | .internalEvent _ => 0
  | .request _ => 1
  | .trackedEvent _ => 2
  | .dependency _ => 3

/-- The success flag carried by a record, when its variant has one. -/
def Track.successFlag : Track → Option Bool
  | .internalEvent _ => none
  | .request r => some r.success
  | .trackedEvent r => some r.success
  | .dependency r => some r.success

/-- The operation id tag of a record (present on every variant). -/
def Track.operationId : Track → String
  | .internalEvent r => r.operationId
  | .request r => r.operationId
  | .trackedEvent r => r.operationId
  | .dependency r => r.operationId

/-- The operation parent id tag of a record (present on every variant). -/
def Track.operationParentId : Track → String
  | .internalEvent r => r.operationParentId
  | .request r => r.operationParentId
  | .trackedEvent r => r.operationParentId
  | .dependency r => r.operationParentId

/-- The free-form property map of a record (present on every variant). -/
def Track.properties : Track → PropMap
  | .internalEvent r => r.properties
  | .request r => r.properties
  | .trackedEvent r => r.properties
  | .dependency r => r.properties

/-- The keys a variant's mapping consumes out of the merged property map
into dedicated telemetry fields. -/
def consumedKeys : Track → List String
  | .internalEvent _ => [serviceNameKey]
  | .request _ => [serviceNameKey, "url", "responseCode"]
  | .trackedEvent _ => [serviceNameKey, "key", "responseCode"]
  | .dependency _ => ["source", "type", serviceNameKey]

/-! ### Basic lemmas about the map operations -/

theorem mapGet_mapDel (m : PropMap) (k' k : String) :
    mapGet (mapDel m k') k = if k' = k then none else mapGet m k := by
  induction m with
  | nil => simp [mapDel, mapGet]
  | cons hd tl ih =>
    obtain ⟨a, b⟩ := hd
    simp only [mapDel]
    split_ifs with h1 <;> simp only [mapGet, ih] <;> split_ifs <;> simp_all

theorem takeKey_fst (m : PropMap) (k d : String) :
    (takeKey m k d).1 = (mapGet m k).getD d := by
  unfold takeKey
  cases h : mapGet m k <;> simp [h]

theorem mapGet_takeKey_snd (m : PropMap) (k d k' : String) :
    mapGet (takeKey m k d).2 k' = if k = k' then none else mapGet m k' := by
  unfold takeKey
  cases h : mapGet m k with
  | none =>
    simp only []
    split_ifs with hk
    · subst hk; exact h.symm ▸ rfl
    · rfl
  | some v => simp [mapGet_mapDel]

/-! ### Lemmas about the hex rendering -/

theorem bytesToHexChars_length (bs : List Nat) :
    (bytesToHexChars bs).length = 2 * bs.length := by
  induction bs with
  | nil => rfl
  | cons b tl ih => simp [bytesToHexChars, ih]; omega

theorem bytesToHex_length (bs : List Nat) :
    (bytesToHex bs).length = 2 * bs.length := by
  simpa [bytesToHex, String.length] using bytesToHexChars_length bs

theorem hexDigit_mem (n : Nat) (h : n < 16) :
    ("0123456789abcdef".data).contains (hexDigit n) = true := by
  interval_cases n <;> decide

theorem bytesToHexChars_all_hex (bs : List Nat) :
    (bytesToHexChars bs).all (fun c => ("0123456789abcdef".data).contains c) = true := by
  induction bs with
  | nil => rfl
  | cons b tl ih =>
    simp only [bytesToHexChars, List.all_cons, ih, Bool.and_true]
    rw [hexDigit_mem _ (Nat.mod_lt _ (by norm_num)),
      hexDigit_mem _ (Nat.mod_lt _ (by norm_num))]
    rfl

theorem isLowerHex_bytesToHex (bs : List Nat) :
    isLowerHex (bytesToHex bs) = true := by
  simpa [isLowerHex, bytesToHex] using bytesToHexChars_all_hex bs

/-! ### Field and property lemmas for the four mappings -/

theorem processInternal_properties (sp : Span) (props : PropMap) (k : String) :
    mapGet (processInternal sp props).properties k =
      if k = serviceNameKey then none else mapGet props k := by
  simp only [processInternal, mapGet_takeKey_snd]
  split_ifs <;> simp_all

theorem processRequest_properties (sp : Span) (s : Bool) (props : PropMap)
    (k : String) :
    mapGet (processRequest sp s props).properties k =
      if k = serviceNameKey ∨ k = "url" ∨ k = "responseCode" then none
      else mapGet props k := by
  simp only [processRequest, mapGet_takeKey_snd]
  split_ifs <;> simp_all [eq_comm]

theorem processEvent_properties (sp : Span) (s : Bool) (props : PropMap)
    (k : String) :
    mapGet (processEvent sp s props).properties k =
      if k = serviceNameKey ∨ k = "key" ∨ k = "responseCode" then none
      else mapGet props k := by
  simp only [processEvent, mapGet_takeKey_snd]
  split_ifs <;> simp_all [eq_comm]

theorem processDependency_properties (sp : Span) (s : Bool) (props : PropMap)
    (k : String) :
    mapGet (processDependency sp s props).properties k =
      if k = "source" ∨ k = "type" ∨ k = serviceNameKey then none
      else mapGet props k := by
  simp only [processDependency, mapGet_takeKey_snd]
  split_ifs <;> simp_all [eq_comm]

theorem processInternal_cloudRole (sp : Span) (props : PropMap) :
    (processInternal sp props).cloudRole =
      (mapGet props serviceNameKey).getD "unknown-service" := by
  simp [processInternal, takeKey_fst]

theorem processRequest_url (sp : Span) (s : Bool) (props : PropMap) :
    (processRequest sp s props).url = (mapGet props "url").getD "" := by
  simp [processRequest, takeKey_fst, mapGet_takeKey_snd, serviceNameKey]

theorem processRequest_responseCode (sp : Span) (s : Bool) (props : PropMap) :
    (processRequest sp s props).responseCode =
      (mapGet props "responseCode").getD "0" := by
  simp [processRequest, takeKey_fst, mapGet_takeKey_snd, serviceNameKey]

theorem processEvent_url (sp : Span) (s : Bool) (props : PropMap) :
    (processEvent sp s props).url = (mapGet props "key").getD "" := by
  simp [processEvent, takeKey_fst, mapGet_takeKey_snd, serviceNameKey]

theorem processEvent_responseCode (sp : Span) (s : Bool) (props : PropMap) :
    (processEvent sp s props).responseCode =
      (mapGet props "responseCode").getD "0" := by
  simp [processEvent, takeKey_fst, mapGet_takeKey_snd, serviceNameKey]

theorem processDependency_cloudRole (sp : Span) (s : Bool) (props : PropMap) :
    (processDependency sp s props).cloudRole =
      (mapGet props "source").getD "unknown-service" := by
  simp [processDependency, takeKey_fst]

theorem processDependency_type (sp : Span) (s : Bool) (props : PropMap) :
    (processDependency sp s props).type = (mapGet props "type").getD "" := by
  simp [processDependency, takeKey_fst, mapGet_takeKey_snd]

theorem processDependency_target (sp : Span) (s : Bool) (props : PropMap) :
    (processDependency sp s props).target =
      (mapGet props serviceNameKey).getD "unknown-target" := by
  simp [processDependency, takeKey_fst, mapGet_takeKey_snd, serviceNameKey]

/-! ### Dispatch lemma: the shapes `process` can produce -/

theorem process_eq_some (sp : Span) (t : Track) (ht : process sp = some t) :
    (sp.kind = SpanKindUnspecified ∨ sp.kind = SpanKindInternal) ∧
      t = .internalEvent (processInternal sp (mergedProps sp)) ∨
    sp.kind = SpanKindServer ∧
      t = .request (processRequest sp
        (decide (sp.statusCode = StatusCode.ok)) (mergedProps sp)) ∨
    (sp.kind = SpanKindClient ∨ sp.kind = SpanKindProducer) ∧
      t = .dependency (processDependency sp
        (decide (sp.statusCode = StatusCode.ok)) (mergedProps sp)) ∨
    sp.kind = SpanKindConsumer ∧
      t = .trackedEvent (processEvent sp
        (decide (sp.statusCode = StatusCode.ok)) (mergedProps sp)) := by
  simp only [process] at ht
  split_ifs at ht <;> simp only [Option.some.injEq] at ht <;> tauto

/-! ### Concrete spans and records used as test vectors -/

/-- The server-span scenario from the test suite: status ok, duration one
minute, service name `test`, url/responseCode/valid attributes. -/
def spanScenario (T : Int) : Span where
  name := "span"
  kind := SpanKindServer
  statusCode := .ok
  startTime := T
  endTime := T + 60000000000
  traceId := [0x00, 0x11, 0x22, 0x33, 0x44, 0x55, 0x66, 0x77,
    0x88, 0x99, 0xAA, 0xBB, 0xCC, 0xDD, 0xEE, 0xFF]
  parentId := [0x01, 0x23, 0x45, 0x67, 0x89, 0xAB, 0xCD, 0xEF]
  spanId := [0x00, 0x00, 0x00, 0x00, 0x00, 0x00, 0x00, 0x01]
  resourceAttrs := [("service.name", "test")]
  attrs := [("url", "users/1234"), ("responseCode", "200"), ("valid", "true")]

/-- The request record the scenario span is expected to produce. -/
def requestScenario (T : Int) : RequestTelemetry where
  name := "span"
  url := "users/1234"
  id := "0000000000000001"
  duration := 60000000000
  responseCode := "200"
  success := true
  timestamp := T
  properties := [("valid", "true")]
  cloudRole := "test"
  operationId := "00112233445566778899aabbccddeeff"
  operationParentId := "0123456789abcdef"
  operationName := "span"

/-- The scenario record before simplifying the duration arithmetic. -/
def requestScenarioAux (T : Int) : RequestTelemetry :=
  { requestScenario T with duration := T + 60000000000 - T }

/-- The scenario span at time zero. -/
def spanServer : Span := spanScenario 0

/-- The record `process` produces for `spanServer`. -/
def trackServer : Track :=
  .request (processRequest spanServer
    (decide (spanServer.statusCode = StatusCode.ok)) (mergedProps spanServer))

/-- The request record inside `trackServer`. -/
def reqServer : RequestTelemetry :=
  processRequest spanServer
    (decide (spanServer.statusCode = StatusCode.ok)) (mergedProps spanServer)

/-- A server span whose status code is `unset` (neither ok nor error). -/
def spanStatusUnset : Span :=
  { spanScenario 0 with statusCode := .unset }

/-- A consumer span carrying both a `url` and a `key` attribute. -/
def spanConsumer : Span :=
  { spanScenario 0 with
    kind := SpanKindConsumer
    attrs := [("url", "users/1234"), ("key", "service.messages.created"),
      ("responseCode", "200"), ("valid", "true")] }

/-- The request-shaped record `process` produces for `spanConsumer`. -/
def evConsumer : RequestTelemetry :=
  processEvent spanConsumer
    (decide (spanConsumer.statusCode = StatusCode.ok)) (mergedProps spanConsumer)

/-- A client span carrying `source` and `type` attributes. -/
def spanClient : Span :=
  { spanScenario 0 with
    kind := SpanKindClient
    attrs := [("source", "server"), ("type", "httpclient"), ("valid", "true")] }

/-- The dependency record `process` produces for `spanClient`. -/
def depClient : RemoteDependencyTelemetry :=
  processDependency spanClient
    (decide (spanClient.statusCode = StatusCode.ok)) (mergedProps spanClient)

/-! ### Claim theorems -/

/-- Claim C1, counterexample: the claim says the success flag is true iff
the status code is not `error`, so a server span with status `unset` should
yield success = true; the code computes success = (status = ok), so the
emitted record for such a span carries success = false. -/
theorem success_iff_not_error_counterexample :
    spanStatusUnset.statusCode ≠ StatusCode.error ∧
    (process spanStatusUnset).bind Track.successFlag = some false :=
  ⟨by decide, rfl⟩

/-- Claim C1, amended: for every span of kind server, client, producer or
consumer that is processed, the emitted record's success flag is true iff
the span's status code is `ok` (status `error` and status `unset` both
yield success = false). -/
theorem success_flag_iff_status_ok (sp : Span)
    (h : sp.kind = SpanKindServer ∨ sp.kind = SpanKindClient ∨
      sp.kind = SpanKindProducer ∨ sp.kind = SpanKindConsumer)
    (t : Track) (ht : process sp = some t) :
    t.successFlag = some (decide (sp.statusCode = StatusCode.ok)) := by
  rcases process_eq_some sp t ht with ⟨hk, rfl⟩ | ⟨hk, rfl⟩ | ⟨hk, rfl⟩ | ⟨hk, rfl⟩
  · rcases h with h | h | h | h <;> rcases hk with hk | hk <;>
      rw [h] at hk <;> exact absurd hk (by decide)
  · rfl
  · rfl
  · rfl

/-- Claim C1, witness for the amended theorem at the concrete server span. -/
theorem success_flag_iff_status_ok_witness :
    Track.successFlag trackServer =
      some (decide (spanServer.statusCode = StatusCode.ok)) :=
  success_flag_iff_status_ok spanServer (Or.inl rfl) trackServer rfl

/-- Claim C2: `process` emits exactly one record when the span kind is one
of the six enumerated values — unspecified or internal yield an internal
event, server a request, client or producer a dependency, consumer a
tracked event — and emits none for any other kind value. -/
theorem process_record_count_and_variant (sp : Span) :
    (process sp).map Track.tag =
      if sp.kind = SpanKindUnspecified ∨ sp.kind = SpanKindInternal then some 0
      else if sp.kind = SpanKindServer then some 1
      else if sp.kind = SpanKindClient ∨ sp.kind = SpanKindProducer then some 3
      else if sp.kind = SpanKindConsumer then some 2
      else none := by
  simp only [process]
  split_ifs <;> simp_all [Track.tag]

/-- Claim C2, witness: the dispatch evaluated at a recognized and at an
unrecognized span kind. -/
theorem process_record_count_and_variant_witness :
    ((process spanServer).map Track.tag =
      if spanServer.kind = SpanKindUnspecified ∨ spanServer.kind = SpanKindInternal
      then some 0
      else if spanServer.kind = SpanKindServer then some 1
      else if spanServer.kind = SpanKindClient ∨ spanServer.kind = SpanKindProducer
      then some 3
      else if spanServer.kind = SpanKindConsumer then some 2
      else none) :=
  process_record_count_and_variant spanServer

/-- Claim C9: processing the concrete server-span scenario emits exactly the
expected request record: id `0000000000000001`, duration 60s, success true,
url `users/1234`, responseCode `200`, operation id
`00112233445566778899aabbccddeeff`, operation parent id `0123456789abcdef`,
cloud role `test` and properties `{valid: "true"}`. -/
theorem scenario_server_span_record (T : Int) :
    process (spanScenario T) = some (.request (requestScenario T)) := by
  have e1 : process (spanScenario T) = some (.request (requestScenarioAux T)) := rfl
  have e2 : requestScenarioAux T = requestScenario T := by
    simp only [requestScenarioAux, requestScenario]
    congr 1
    omega
  rw [e1, e2]

/-- Claim C3: every emitted record's operation id is the span's trace id as
32 lowercase hex characters, and its operation parent id is the parent span
id as 16 lowercase hex characters unless that rendering is the all-zero
sentinel, in which case it falls back to the trace id; this holds for all
four variants. -/
theorem operation_ids_from_trace_and_parent (sp : Span) (t : Track)
    (ht : process sp = some t) (h16 : sp.traceId.length = 16)
    (h8 : sp.parentId.length = 8) :
    t.operationId = bytesToHex sp.traceId ∧
    (bytesToHex sp.traceId).length = 32 ∧
    isLowerHex (bytesToHex sp.traceId) = true ∧
    (if bytesToHex sp.parentId = "0000000000000000"
      then t.operationParentId = bytesToHex sp.traceId
      else t.operationParentId = bytesToHex sp.parentId ∧
        (bytesToHex sp.parentId).length = 16 ∧
        isLowerHex (bytesToHex sp.parentId) = true) := by
  have hop : t.operationId = bytesToHex sp.traceId ∧
      t.operationParentId = parentOperationId sp := by
    rcases process_eq_some sp t ht with ⟨hk, rfl⟩ | ⟨hk, rfl⟩ | ⟨hk, rfl⟩ | ⟨hk, rfl⟩ <;>
      exact ⟨rfl, rfl⟩
  refine ⟨hop.1, by rw [bytesToHex_length, h16], isLowerHex_bytesToHex _, ?_⟩
  rw [hop.2]
  simp only [parentOperationId]
  split_ifs with hz
  · rfl
  · exact ⟨rfl, by rw [bytesToHex_length, h8], isLowerHex_bytesToHex _⟩

/-- Claim C3, witness at the concrete server span. -/
theorem operation_ids_from_trace_and_parent_witness :
    Track.operationId trackServer = bytesToHex spanServer.traceId ∧
    (bytesToHex spanServer.traceId).length = 32 ∧
    isLowerHex (bytesToHex spanServer.traceId) = true ∧
    (if bytesToHex spanServer.parentId = "0000000000000000"
      then Track.operationParentId trackServer = bytesToHex spanServer.traceId
      else Track.operationParentId trackServer = bytesToHex spanServer.parentId ∧
        (bytesToHex spanServer.parentId).length = 16 ∧
        isLowerHex (bytesToHex spanServer.parentId) = true) :=
  operation_ids_from_trace_and_parent spanServer trackServer rfl rfl rfl

/-- Claim C4: the emitted record's free-form property map is exactly the
merged property map minus the keys consumed by that variant's mapping: a
consumed key is absent, and every other key retains its merged value. -/
theorem emitted_properties_merged_minus_consumed (sp : Span) (t : Track)
    (ht : process sp = some t) (k : String) :
    mapGet (Track.properties t) k =
      if k ∈ consumedKeys t then none else mapGet (mergedProps sp) k := by
  rcases process_eq_some sp t ht with ⟨hk, rfl⟩ | ⟨hk, rfl⟩ | ⟨hk, rfl⟩ | ⟨hk, rfl⟩
  · simp [Track.properties, consumedKeys, processInternal_properties]
  · simp [Track.properties, consumedKeys, processRequest_properties]
  · simp [Track.properties, consumedKeys, processDependency_properties]
  · simp [Track.properties, consumedKeys, processEvent_properties]

/-- Claim C4, witness: the consumed key `url` is absent from the concrete
server record's properties while `valid` keeps its merged value. -/
theorem emitted_properties_merged_minus_consumed_witness :
    mapGet (Track.properties trackServer) "url" =
      (if "url" ∈ consumedKeys trackServer then none
        else mapGet (mergedProps spanServer) "url") ∧
    mapGet (Track.properties trackServer) "valid" =
      (if "valid" ∈ consumedKeys trackServer then none
        else mapGet (mergedProps spanServer) "valid") :=
  ⟨emitted_properties_merged_minus_consumed spanServer trackServer rfl "url",
    emitted_properties_merged_minus_consumed spanServer trackServer rfl "valid"⟩

/-- Claim C5: a dependency record sources its cloud role from the merged
`source` property (default `unknown-service`), its type from `type`
(default empty), and its target from the service-name key (default
`unknown-target`); in particular the service-name key never sets the cloud
role and `source` never sets the target. -/
theorem dependency_role_type_target (sp : Span)
    (h : sp.kind = SpanKindClient ∨ sp.kind = SpanKindProducer)
    (d : RemoteDependencyTelemetry)
    (hd : process sp = some (.dependency d)) :
    d.cloudRole = (mapGet (mergedProps sp) "source").getD "unknown-service" ∧
    d.type = (mapGet (mergedProps sp) "type").getD "" ∧
    d.target = (mapGet (mergedProps sp) serviceNameKey).getD "unknown-target" := by
  rcases process_eq_some sp _ hd with ⟨hk, he⟩ | ⟨hk, he⟩ | ⟨hk, he⟩ | ⟨hk, he⟩
  · exact absurd he (by simp)
  · exact absurd he (by simp)
  · injection he with he'
    subst he'
    exact ⟨processDependency_cloudRole sp _ _, processDependency_type sp _ _,
      processDependency_target sp _ _⟩
  · exact absurd he (by simp)

/-- Claim C5, witness at the concrete client span. -/
theorem dependency_role_type_target_witness :
    depClient.cloudRole =
      (mapGet (mergedProps spanClient) "source").getD "unknown-service" ∧
    depClient.type = (mapGet (mergedProps spanClient) "type").getD "" ∧
    depClient.target =
      (mapGet (mergedProps spanClient) serviceNameKey).getD "unknown-target" :=
  dependency_role_type_target spanClient (Or.inl rfl) depClient rfl

/-- Claim C6: a server span's request record sources url from the merged
`url` property (default empty) and responseCode from `responseCode`
(default `"0"`); a consumer span's tracked-event record sources url from
`key` (not `url`) and responseCode from `responseCode`, with the same
defaults. -/
theorem request_event_url_responseCode (sp : Span) :
    (∀ r : RequestTelemetry, sp.kind = SpanKindServer →
      process sp = some (.request r) →
      r.url = (mapGet (mergedProps sp) "url").getD "" ∧
      r.responseCode = (mapGet (mergedProps sp) "responseCode").getD "0") ∧
    (∀ r : RequestTelemetry, sp.kind = SpanKindConsumer →
      process sp = some (.trackedEvent r) →
      r.url = (mapGet (mergedProps sp) "key").getD "" ∧
      r.responseCode = (mapGet (mergedProps sp) "responseCode").getD "0") := by
  constructor
  · intro r hk hr
    rcases process_eq_some sp _ hr with ⟨_, he⟩ | ⟨_, he⟩ | ⟨_, he⟩ | ⟨_, he⟩
    · exact absurd he (by simp)
    · injection he with he'
      subst he'
      exact ⟨processRequest_url sp _ _, processRequest_responseCode sp _ _⟩
    · exact absurd he (by simp)
    · exact absurd he (by simp)
  · intro r hk hr
    rcases process_eq_some sp _ hr with ⟨_, he⟩ | ⟨_, he⟩ | ⟨_, he⟩ | ⟨_, he⟩
    · exact absurd he (by simp)
    · exact absurd he (by simp)
    · exact absurd he (by simp)
    · injection he with he'
      subst he'
      exact ⟨processEvent_url sp _ _, processEvent_responseCode sp _ _⟩

/-- Claim C6, witness at the concrete server and consumer spans. -/
theorem request_event_url_responseCode_witness :
    (reqServer.url = (mapGet (mergedProps spanServer) "url").getD "" ∧
      reqServer.responseCode =
        (mapGet (mergedProps spanServer) "responseCode").getD "0") ∧
    (evConsumer.url = (mapGet (mergedProps spanConsumer) "key").getD "" ∧
      evConsumer.responseCode =
        (mapGet (mergedProps spanConsumer) "responseCode").getD "0") :=
  ⟨(request_event_url_responseCode spanServer).1 reqServer rfl rfl,
    (request_event_url_responseCode spanConsumer).2 evConsumer rfl rfl⟩

/-- Claim C7: a closed exporter rejects the whole batch with the
closed-exporter error and processes no span; an open exporter processes
every span of the batch through the classifier-mapper and returns
success. -/
theorem exportSpans_closed_guard (exp : AppInsightsExporter)
    (spans : List Span) :
    (exp.closed = true → ExportSpans exp spans = .error "exporter closed") ∧
    (exp.closed = false →
      ExportSpans exp spans = .ok (spans.filterMap process)) := by
  cases hc : exp.closed <;> simp [ExportSpans, hc]

/-- Claim C7, witness: a closed exporter rejects a batch, an open one
processes it. -/
theorem exportSpans_closed_guard_witness :
    ExportSpans ⟨true⟩ [spanServer] = .error "exporter closed" ∧
    ExportSpans ⟨false⟩ [spanServer] = .ok ([spanServer].filterMap process) :=
  ⟨(exportSpans_closed_guard ⟨true⟩ [spanServer]).1 rfl,
    (exportSpans_closed_guard ⟨false⟩ [spanServer]).2 rfl⟩

/-- Claim C8: shutdown unconditionally leaves the exporter closed, whatever
the race outcome, and returns success when the client close completion
fires first and the canceled failure when the cancellation signal fires
first; a repeated shutdown behaves the same way on the already-closed
exporter. -/
theorem shutdown_closes_and_reports_race (exp : AppInsightsExporter)
    (closeFirst closeFirst2 : Bool) :
    (Shutdown exp closeFirst).1.closed = true ∧
    (Shutdown exp closeFirst).2 =
      (if closeFirst then Except.ok () else Except.error "context canceled") ∧
    (Shutdown (Shutdown exp closeFirst).1 closeFirst2).1.closed = true ∧
    (Shutdown (Shutdown exp closeFirst).1 closeFirst2).2 =
      (if closeFirst2 then Except.ok ()
        else Except.error "context canceled") :=
  ⟨rfl, rfl, rfl, rfl⟩

/-- Claim C10: for a consumer span whose merged properties contain `url`,
the tracked-event mapping does not consume that entry: the record's url
comes from `key` alone, and the `url` entry survives, unchanged, in the
emitted record's property map. -/
theorem consumer_url_property_not_consumed (sp : Span)
    (hk : sp.kind = SpanKindConsumer) (v : String)
    (hurl : mapGet (mergedProps sp) "url" = some v)
    (r : RequestTelemetry) (hr : process sp = some (.trackedEvent r)) :
    r.url = (mapGet (mergedProps sp) "key").getD "" ∧
    mapGet r.properties "url" = some v := by
  rcases process_eq_some sp _ hr with ⟨_, he⟩ | ⟨_, he⟩ | ⟨_, he⟩ | ⟨_, he⟩
  · exact absurd he (by simp)
  · exact absurd he (by simp)
  · exact absurd he (by simp)
  · injection he with he'
    subst he'
    refine ⟨processEvent_url sp _ _, ?_⟩
    rw [processEvent_properties, if_neg (by decide)]
    exact hurl

/-- Claim C10, witness at the concrete consumer span carrying both a `url`
and a `key` attribute. -/
theorem consumer_url_property_not_consumed_witness :
    evConsumer.url = (mapGet (mergedProps spanConsumer) "key").getD "" ∧
    mapGet evConsumer.properties "url" = some "users/1234" :=
  consumer_url_property_not_consumed spanConsumer rfl "users/1234" rfl
    evConsumer rfl

end Apex
